import Mathlib

/-!
Verification of the `live` server library (stateless HTTP path, stateful
websocket path, handler registry, and render/diff engine) against its
natural-language specification.  Go code is shallowly embedded: pure Go
functions become Lean functions, the per-connection control flow becomes
functions producing explicit traces, and the Go `error` chain (with
`errors.Is` / `errors.As` unwrap semantics) becomes an inductive type.
-/

namespace Live

/-- Go `interface\x7b\x7d` values carried through handlers and socket assigns.
A small closed universe suffices for the control flow under verification. -/
inductive GoVal where
  | nil
  | str (s : String)
  | num (n : Int)
  deriving DecidableEq, Repr

/-- Go errors as an unwrap chain.  `noEventHandler` embeds `ErrNoEventHandler`,
`noRenderer` embeds `ErrNoRenderer`, `canceled` embeds `context.Canceled`,
`closeErr` embeds a `websocket.CloseError` with its status code, and
`wrap s inner` embeds the result of `fmt.Errorf("s: %w", inner)`. -/
inductive GoError where
  | noEventHandler
  | noRenderer
  | canceled
  | closeErr (code : Int) (reason : String)
  | msg (s : String)
  | wrap (s : String) (inner : GoError)
  deriving DecidableEq, Repr

/-- Embedding of Go `errors.Is`: the target matches the error itself or any
error in its unwrap chain. -/
def errorsIs : GoError → GoError → Bool
  | .wrap s inner, t => (GoError.wrap s inner == t) || errorsIs inner t
  | e, t => e == t

/-- Embedding of Go `err.Error()` (message rendering, `%w` included). -/
def errMessage : GoError → String
  | .noEventHandler => "no event handler"
  | .noRenderer => "no renderer defined"
  | .canceled => "context canceled"
  | .closeErr code reason => "ws close " ++ toString code ++ ": " ++ reason
  | .msg s => s
  | .wrap s inner => s ++ ": " ++ errMessage inner

/-- Embedding of `websocket.CloseStatus` on a non-nil error: `errors.As`
walks the unwrap chain for a `CloseError`, returning -1 when none exists. -/
def closeStatusErr : GoError → Int
  | .closeErr code _ => code
  | .wrap _ inner => closeStatusErr inner
  | _ => -1

/-- Embedding of `websocket.CloseStatus` applied to a possibly-nil Go error:
`CloseStatus(nil)` is -1 because `errors.As(nil, ...)` never matches. -/
def closeStatus : Option GoError → Int
  | none => -1
  | some e => closeStatusErr e

/-- Embedding of `errors.Is` applied to a possibly-nil Go error:
`errors.Is(nil, target)` is false for every non-nil target. -/
def errorsIsOpt : Option GoError → GoError → Bool
  | none, _ => false
  | some e, t => errorsIs e t

/-- Render tree snapshot: a node is a text leaf or an element with a tag,
an ordered attribute list, and ordered children (spec §3). -/
inductive Tree where
  | text (s : String)
  | elem (tag : String) (attrs : List (String × String)) (children : List Tree)

/-- Serialize an attribute list in order. -/
def attrsString : List (String × String) → String
  | [] => ""
  | (k, v) :: rest => " " ++ k ++ "=\"" ++ v ++ "\"" ++ attrsString rest

mutual

/-- Serialize a tree snapshot to its wire document form. -/
def serialize : Tree → String
  | .text s => s
  | .elem tag attrs children =>
      "<" ++ tag ++ attrsString attrs ++ ">" ++ serializeChildren children
        ++ "</" ++ tag ++ ">"

/-- Serialize a child list in document order. -/
def serializeChildren : List Tree → String
  | [] => ""
  | c :: cs => serialize c ++ serializeChildren cs

end

/-- A patch operation addressed by a path of child indices from the root
(spec §3).  Replaced subtrees and inserted children are carried in
serialized form, as delivered to the thin client. -/
inductive PatchOp where
  | setAttr (path : List Nat) (key value : String)
  | removeAttr (path : List Nat) (key : String)
  | replaceText (path : List Nat) (content : String)
  | insertChildAt (path : List Nat) (index : Nat) (content : String)
  | removeChildAt (path : List Nat) (index : Nat)
  | replaceSubtree (path : List Nat) (content : String)
  deriving DecidableEq, Repr

/-- Attribute reconciliation at one position: a set op for each key whose
value is new or changed, a remove op for each key no longer present. -/
def diffAttrs (path : List Nat) (old new : List (String × String)) : List PatchOp :=
  new.filterMap (fun kv =>
      if old.lookup kv.1 = some kv.2 then none
      else some (.setAttr path kv.1 kv.2))
    ++ old.filterMap (fun kv =>
      if (new.lookup kv.1).isNone then some (.removeAttr path kv.1) else none)

mutual

/-- Modelled from the spec: the diff walk of §4.6 (the source file
`diff.go` is not part of the excerpt under verification).  Walks both
trees in lock-step by structural position: differing node kind or tag
yields `replaceSubtree`; same tag yields attribute ops then a child walk;
differing text yields `replaceText`.  Positional child reconciliation is
used (the keyed minimal-edit refinement of §4.6 is not needed by any
claim).  Operations are emitted in document order (pre-order). -/
def diffNodes (path : List Nat) : Tree → Tree → List PatchOp
  | .text a, .text b => if a = b then [] else [.replaceText path b]
  | .elem t1 a1 c1, .elem t2 a2 c2 =>
      if t1 = t2 then diffAttrs path a1 a2 ++ diffChildren path 0 c1 c2
      else [.replaceSubtree path (serialize (.elem t2 a2 c2))]
  | .text _, .elem t2 a2 c2 => [.replaceSubtree path (serialize (.elem t2 a2 c2))]
  | .elem _ _ _, .text b => [.replaceSubtree path (serialize (.text b))]

/-- Child-list walk for `diffNodes`: pairwise recursion, inserts for extra
new children, removes for extra old children. -/
def diffChildren (path : List Nat) (i : Nat) : List Tree → List Tree → List PatchOp
  | [], [] => []
  | [], y :: ys => .insertChildAt path i (serialize y) :: diffChildren path (i + 1) [] ys
  | _ :: xs, [] => .removeChildAt path i :: diffChildren path (i + 1) xs []
  | x :: xs, y :: ys => diffNodes (path ++ [i]) x y ++ diffChildren path (i + 1) xs ys

end

/-- Result of the diff step: a full serialized document on first paint, a
patch list afterwards (spec §4.6). -/
inductive DiffResult where
  | fullTree (doc : String)
  | patches (ops : List PatchOp)

/-- Modelled from the spec: `Diff(previous: Tree|absent, current: Tree)`
of §4.6 (the source file `diff.go` is not part of the excerpt under
verification).  If no previous snapshot exists the serialized full tree is
returned; otherwise the lock-step walk produces a patch list. -/
def Diff : Option Tree → Tree → DiffResult
  | none, t => .fullTree (serialize t)
  | some prev, t => .patches (diffNodes [] prev t)

/-- Request- or event-derived parameters (`live.Params`): a key/value map,
ordered as decoded. -/
abbrev Params := List (String × String)

/-- Modelled from the spec: wire event type tags of §6 (the source file
`event.go` is not part of the excerpt under verification).  The exact tag
strings are opaque to the control flow; they only need to be distinct. -/
def EventConnect : String := "connect"

/-- Modelled from the spec: the parameter-change event type tag (§6). -/
def EventParams : String := "params"

/-- Modelled from the spec: the acknowledgement event type tag (§6). -/
def EventAck : String := "ack"

/-- Modelled from the spec: the error event type tag (§6). -/
def EventError : String := "err"

/-- Modelled from the spec: the patch event type tag (§6). -/
def EventPatch : String := "patch"

/-- Payload carried by an outbound or inbound event. -/
inductive EventData where
  | empty
  | val (v : GoVal)
  | errText (s : String)
  | patchList (ops : List PatchOp)
  deriving DecidableEq, Repr

/-- Wire message: type tag, correlation id, payload, and (for inbound
events) the decoded parameter map handed to event handlers. -/
structure Event where
  T : String
  ID : Nat := 0
  data : EventData := .empty
  params : Params := []
  deriving DecidableEq, Repr

/-- Typed error event queued for delivery to the client (`ErrorEvent` in
the source): the source message and the handler error's message. -/
structure ErrorEvent where
  source : Event
  err : String
  deriving DecidableEq, Repr

/-- Session: opaque identity plus key/value data, supplied by the external
session store. -/
structure Session where
  id : Nat
  values : List (String × GoVal) := []
  deriving DecidableEq, Repr

/-- Per-connection socket state (`BaseSocket`): the session, the connected
flag, the current assigns, the most recent render snapshot (absent until
first render), and the outbound message queue. -/
structure SocketState where
  session : Session
  connected : Bool
  assigns : GoVal := .nil
  renderState : Option Tree := none
  msgs : List Event := []

/-- `NewHTTPSocket` / `NewBaseSocket`: a fresh socket for a session, with
no assigns, no snapshot, and an empty outbound queue. -/
def NewHTTPSocket (s : Session) (connected : Bool) : SocketState :=
  { session := s, connected := connected }

/-- `Socket.Assign`: replace the socket's current state value. -/
def SocketState.Assign (sock : SocketState) (data : GoVal) : SocketState :=
  { sock with assigns := data }

/-- `Socket.UpdateRender`: store the latest render snapshot. -/
def SocketState.UpdateRender (sock : SocketState) (t : Tree) : SocketState :=
  { sock with renderState := some t }

/-- `Socket.Send`: queue an outbound event on the socket's message queue
(marshalling of the payloads used on these paths cannot fail). -/
def SocketState.Send (sock : SocketState) (e : Event) : SocketState :=
  { sock with msgs := sock.msgs ++ [e] }

/-- Trace entries of the stateless request path (`serveHTTP`).
`handledError e` records that the configured Error handler was invoked
with `e` (what that user-supplied handler then writes is its own
business); the remaining entries are the response actions `serveHTTP`
itself performs. -/
inductive HTTPAction where
  | logged (s : String)
  | clearedSession
  | redirected (code : Nat) (path : String) (query : Params)
  | handledError (e : GoError)
  | savedSession
  | wroteStatus (code : Nat)
  | wroteBody (body : String)
  deriving DecidableEq, Repr

/-- `MountHandler`: called with the socket, returns the state to assign. -/
abbrev MountHandler := SocketState → Except GoError GoVal

/-- `UnmountHandler`: called on websocket close. -/
abbrev UnmountHandler := SocketState → Option GoError

/-- `RenderHandler`: renders the current assigns to a tree snapshot (the
source returns an `io.Reader` over markup; its parsed tree is modelled). -/
abbrev RenderHandler := GoVal → Except GoError Tree

/-- `ErrorHandler`: invoked on mount/render cycle errors; modelled by the
response actions it performs. -/
abbrev ErrorHandler := GoError → List HTTPAction

/-- `EventHandler`: handles a client event, returning the data to assign. -/
abbrev EventHandler := SocketState → Params → Except GoError GoVal

/-- `SelfHandler`: handles a server-side self event. -/
abbrev SelfHandler := SocketState → EventData → Except GoError GoVal

/-- `BaseHandler`: registry of mount/unmount/render/error hooks and the
event, self-event, and params handler maps (handler.go). -/
structure BaseHandler where
  mountHandler : MountHandler
  unmountHandler : UnmountHandler
  renderHandler : RenderHandler
  errorHandler : ErrorHandler
  eventHandlers : List (String × EventHandler)
  selfHandlers : List (String × SelfHandler)
  paramsHandlers : List EventHandler

/-- `HandlerConfig`: a functional option; it may update the handler and
may fail (the source mutates the handler in place and returns an error). -/
abbrev HandlerConfig := BaseHandler → BaseHandler × Option GoError

/-- The handler value built by `NewHandler` (handler.go lines 96-116)
before configs are applied: empty handler maps, a mount handler returning
`(nil, nil)`, an unmount handler returning `nil`, a render handler failing
with `ErrNoRenderer`, and an error handler writing a 500 response carrying
the error's message. -/
def defaultBaseHandler : BaseHandler :=
  { mountHandler := fun _ => .ok .nil
    unmountHandler := fun _ => none
    renderHandler := fun _ => .error .noRenderer
    errorHandler := fun e => [.wroteStatus 500, .wroteBody (errMessage e)]
    eventHandlers := []
    selfHandlers := []
    paramsHandlers := [] }

/-- One config application in `NewHandler` (handler.go lines 117-121): a
failing config contributes a logged warning and application continues. -/
def newHandlerStep (acc : BaseHandler × List GoError) (conf : HandlerConfig) :
    BaseHandler × List GoError :=
  match conf acc.1 with
  | (h, none) => (h, acc.2)
  | (h, some e) => (h, acc.2 ++ [e])

/-- `NewHandler` (handler.go lines 95-123): start from the default base
handler and apply each config in order; a config error is logged as a
warning and application continues.  Returns the handler together with the
warnings emitted. -/
def NewHandler (configs : List HandlerConfig) : BaseHandler × List GoError :=
  configs.foldl newHandlerStep (defaultBaseHandler, [])

/-- `getEvent` (handler.go): resolve a client event type, failing with a
wrapped `ErrNoEventHandler` when no handler is registered. -/
def getEvent (h : BaseHandler) (t : String) : Except GoError EventHandler :=
  match h.eventHandlers.lookup t with
  | none => .error (.wrap ("no event handler for " ++ t) .noEventHandler)
  | some handler => .ok handler

/-- `getSelf` (handler.go): resolve a self event type, failing with a
wrapped `ErrNoEventHandler` when no handler is registered. -/
def getSelf (h : BaseHandler) (t : String) : Except GoError SelfHandler :=
  match h.selfHandlers.lookup t with
  | none => .error (.wrap ("no self handler for " ++ t) .noEventHandler)
  | some handler => .ok handler

/-- `getParams` (handler.go): the registered params handlers in order. -/
def getParams (h : BaseHandler) : List EventHandler :=
  h.paramsHandlers

/-- `HTTPHandler` (http.go): the base handler plus the live-socket set.
The set itself is modelled from the spec (the source file holding
`AddSocket`/`DeleteSocket` is not part of the excerpt under verification):
the handler-owned registry of currently connected sockets, keyed by
socket identity. -/
structure HTTPHandler where
  base : BaseHandler
  sockets : List Nat := []

/-- Modelled from the spec: `AddSocket` registers a stateful socket in the
handler's live set on connect (§3; the defining source file is not part of
the excerpt under verification).  Socket identities are fresh per
connection. -/
def AddSocket (h : HTTPHandler) (sid : Nat) : HTTPHandler :=
  { h with sockets := sid :: h.sockets }

/-- Modelled from the spec: `DeleteSocket` deregisters a socket from the
live set on disconnect (§3; the defining source file is not part of the
excerpt under verification). -/
def DeleteSocket (h : HTTPHandler) (sid : Nat) : HTTPHandler :=
  { h with sockets := h.sockets.erase sid }

/-- Modelled from the spec: `NewBaseHandler` as called by the HTTP
constructor (http.go line 63; its defining source file is not part of the
excerpt under verification).  Per §4.2, configuration is applied as an
ordered sequence of functional options, each of which may fail, aborting
construction. -/
def NewBaseHandler (configs : List HandlerConfig) : Except GoError BaseHandler :=
  configs.foldl
    (fun acc conf =>
      match acc with
      | .error e => .error e
      | .ok h =>
        match conf h with
        | (h1, none) => .ok h1
        | (_, some e) => .error e)
    (.ok defaultBaseHandler)

/-- `NewHandler` for the HTTP handler (http.go lines 62-77): build the
base handler via `NewBaseHandler` (aborting, wrapped, on its error), then
apply every config to the HTTP handler in order, aborting with a wrapped
error on the first failure. -/
def HTTPNewHandler (configs : List HandlerConfig) : Except GoError HTTPHandler :=
  match NewBaseHandler configs with
  | .error e => .error (.wrap "could not init base handler" e)
  | .ok d =>
    configs.foldl
      (fun acc conf =>
        match acc with
        | .error e => .error e
        | .ok h =>
          match conf h.base with
          | (b1, none) => .ok { h with base := b1 }
          | (_, some e) => .error (.wrap "could not apply config" e))
      (.ok { base := d, sockets := [] })

/-- One step of the params-handler sequence: skip once an error occurred,
otherwise invoke the handler and assign its result. -/
def paramStep (p : Params) (acc : SocketState × Option GoError) (ph : EventHandler) :
    SocketState × Option GoError :=
  match acc with
  | (s, some e) => (s, some e)
  | (s, none) =>
    match ph s p with
    | .error e => (s, some e)
    | .ok d => (s.Assign d, none)

/-- The params-handler sequence shared by the stateless path, the
websocket connect path, and `CallParams`: invoke each handler in
registration order, assigning each result, stopping at the first error. -/
def runParams (hs : List EventHandler) (p : Params) (s : SocketState) :
    SocketState × Option GoError :=
  hs.foldl (paramStep p) (s, none)

/-- Modelled from the spec: `CallParams` (§4.5; its defining source file
is not part of the excerpt under verification): on a parameter-change
event, invoke all registered params handlers in order, assigning each
result to the socket; a handler error stops the sequence and is returned. -/
def CallParams (h : BaseHandler) (sock : SocketState) (m : Event) :
    SocketState × Option GoError :=
  runParams (getParams h) m.params sock

/-- Modelled from the spec: `CallEvent` (§4.5; its defining source file is
not part of the excerpt under verification): resolve the matching event or
self-event handler via the registry's `getEvent`/`getSelf` (handler.go),
invoke it, and assign the returned state; when neither is registered the
wrapped `ErrNoEventHandler` from `getEvent` is returned. -/
def CallEvent (h : BaseHandler) (t : String) (sock : SocketState) (m : Event) :
    SocketState × Option GoError :=
  match getEvent h t with
  | .ok handler =>
    match handler sock m.params with
    | .error e => (sock, some e)
    | .ok d => (sock.Assign d, none)
  | .error eEv =>
    match getSelf h t with
    | .ok handler =>
      match handler sock m.data with
      | .error e => (sock, some e)
      | .ok d => (sock.Assign d, none)
    | .error _ => (sock, some eEv)

/-- Modelled from the spec: `RenderSocket` (§2, §4.6; its defining source
file is not part of the excerpt under verification): render the socket's
current assigns through the handler's render handler; diff the new tree
against the socket's previous snapshot and queue a patch event when the
diff is a non-empty patch list.  Returns the socket (with any queued
patch) and the new tree; the caller stores the snapshot via
`UpdateRender`. -/
def RenderSocket (h : BaseHandler) (sock : SocketState) :
    Except GoError (SocketState × Tree) :=
  match h.renderHandler sock.assigns with
  | .error e => .error e
  | .ok t =>
    match Diff sock.renderState t with
    | .fullTree _ => .ok (sock, t)
    | .patches [] => .ok (sock, t)
    | .patches ops =>
        .ok (sock.Send { T := EventPatch, data := .patchList ops }, t)

/-- Result of handling one decoded inbound text event in the websocket
read activity: the socket afterwards, log lines, queued error events, and
errors pushed on the internal (fatal) channel. -/
structure MsgResult where
  sock : SocketState
  logs : List String
  eventErrors : List ErrorEvent
  internalErrors : List GoError

/-- Event dispatch switch of the read loop (http.go lines 232-251):
a params-changed event goes to `CallParams`, anything else to
`CallEvent`. -/
def dispatchEvent (h : BaseHandler) (sock : SocketState) (m : Event) :
    SocketState × Option GoError :=
  if m.T = EventParams then CallParams h sock m else CallEvent h m.T sock m

/-- One decoded inbound text event in the read activity (http.go lines
232-260): dispatch the event (a `ErrNoEventHandler` failure is logged and
swallowed, any other failure queues a typed error event); re-render (a
render failure is pushed on the internal channel, a success updates the
stored snapshot); then queue one acknowledgement event carrying the
inbound message's id. -/
def handleEvent (h : BaseHandler) (sock : SocketState) (m : Event) : MsgResult :=
  let dispatched := dispatchEvent h sock m
  let afterDispatch : SocketState × List String × List ErrorEvent :=
    match dispatched with
    | (s, none) => (s, [], [])
    | (s, some e) =>
      if errorsIs e .noEventHandler then (s, ["event error"], [])
      else (s, [], [{ source := m, err := errMessage e }])
  let sock1 := afterDispatch.1
  let rendered : SocketState × List GoError :=
    match RenderSocket h sock1 with
    | .error e => (sock1, [.wrap "socket handle error" e])
    | .ok (s, t) => (s.UpdateRender t, [])
  let sock2 := rendered.1.Send { T := EventAck, ID := m.ID }
  { sock := sock2
    logs := afterDispatch.2.1
    eventErrors := afterDispatch.2.2
    internalErrors := rendered.2 }

/-- Request URL: path plus decoded query parameters. -/
structure URL where
  path : String
  query : Params := []
  deriving DecidableEq, Repr

/-- `r.URL.Query().Get(key)`: first value for the key, empty if absent. -/
def URL.queryGet (u : URL) (key : String) : String :=
  (u.query.lookup key).getD ""

/-- `q.Set(key, value)` followed by re-encoding into the URL: replace any
existing binding of the key. -/
def URL.querySet (u : URL) (key value : String) : URL :=
  { u with query := (key, value) :: u.query.filter (fun kv => kv.1 ≠ key) }

/-- `NewParamsFromRequest`: the request's decoded query parameters. -/
def NewParamsFromRequest (u : URL) : Params :=
  u.query

/-- `serveHTTP` (http.go lines 110-168), the stateless request path, as a
function of the handler, the request URL, and the outcomes of the two
session-store calls.  Returns the handler afterwards (the source never
touches the handler or any other connection on this path) together with
the trace of response actions.  Session-store `Get` failure: with the
`live-repair` query parameter present the error handler is invoked with a
wrapped session-corruption error; otherwise the session is cleared and a
single temporary redirect to the same URL with `live-repair=1` is issued.
Otherwise: fresh disconnected socket, mount, params handlers in order,
render, session save, then a 200 response with the serialized document —
each failure short-circuiting to the error handler. -/
def serveHTTP (h : HTTPHandler) (url : URL) (getRes : Except GoError Session)
    (saveRes : Option GoError) : HTTPHandler × List HTTPAction :=
  match getRes with
  | .error err =>
    if url.queryGet "live-repair" ≠ "" then
      (h, [.handledError (.wrap "session corrupted" err)])
    else
      let target := url.querySet "live-repair" "1"
      (h, [.logged ("session corrupted trying to repair: " ++ errMessage err),
           .clearedSession,
           .redirected 307 target.path target.query])
  | .ok session =>
    match h.base.mountHandler (NewHTTPSocket session false) with
    | .error e => (h, [.handledError e])
    | .ok data =>
      match
        runParams (getParams h.base) (NewParamsFromRequest url)
          ((NewHTTPSocket session false).Assign data)
      with
      | (_, some e) => (h, [.handledError e])
      | (sock1, none) =>
        match RenderSocket h.base sock1 with
        | .error e => (h, [.handledError e])
        | .ok (_, tree) =>
          -- the source stores the snapshot on the request socket
          -- (`sock.UpdateRender(render)`) and then discards that socket
          match saveRes with
          | some e => (h, [.handledError e])
          | none => (h, [.savedSession, .wroteStatus 200, .wroteBody (serialize tree)])

/-- One arrival at the `select` of the websocket write loop (http.go lines
296-325), with the outcome of the corresponding bounded write: a queued
socket message, a queued error event, an internal error (a `none` value is
the zero value received from a closed channel), or context cancellation. -/
inductive LoopCase where
  | msg (e : Event) (writeRes : Option GoError)
  | eventError (ee : ErrorEvent) (writeRes : Option GoError)
  | internalError (e : Option GoError) (writeRes : Option GoError)
  | ctxDone

/-- Outcome of running the write loop against a finite arrival script:
either some case returned from `_serveWS` with a Go error value, or the
script ran out with the loop still running. -/
inductive LoopExit where
  | exited (res : Option GoError)
  | running

/-- The websocket write loop (http.go lines 296-325) over an arrival
script.  A failed write of a queued message or error event returns a
wrapped write error; a non-nil internal error is written best-effort as an
error event and then returned wrapped as fatal; a nil internal error (the
closed-channel zero value) is skipped; context cancellation returns nil. -/
def wsLoop : List LoopCase → LoopExit
  | [] => .running
  | .msg _ writeRes :: rest =>
    match writeRes with
    | none => wsLoop rest
    | some e => .exited (some (.wrap "writing to socket error" e))
  | .eventError _ writeRes :: rest =>
    match writeRes with
    | none => wsLoop rest
    | some e => .exited (some (.wrap "writing to socket error" e))
  | .internalError none _ :: rest => wsLoop rest
  | .internalError (some e) writeRes :: _ =>
    match writeRes with
    | none => .exited (some (.wrap "internal error" e))
    | some we => .exited (some (.wrap "writing to socket error" we))
  | .ctxDone :: _ => .exited none

/-- The body of `_serveWS` after socket registration (http.go lines
269-325): re-run mount, re-run the params handlers in order, render (each
failure returning a wrapped error), then enter the write loop. -/
def serveWSBody (h : BaseHandler) (url : URL) (sock : SocketState)
    (script : List LoopCase) : LoopExit :=
  match h.mountHandler sock with
  | .error e => .exited (some (.wrap "socket mount error" e))
  | .ok data =>
    match runParams (getParams h) (NewParamsFromRequest url) (sock.Assign data) with
    | (_, some e) => .exited (some (.wrap "socket params error" e))
    | (sock1, none) =>
      match RenderSocket h sock1 with
      | .error e => .exited (some (.wrap "socket render error" e))
      | .ok (_, _) =>
        -- the source stores the snapshot (`sock.UpdateRender(render)`) for
        -- the read activity, modelled separately by `handleEvent`
        wsLoop script

/-- `_serveWS` (http.go lines 204-326): register the fresh connected
socket in the live set, run the connection body, and — by the deferred
`DeleteSocket` — deregister it whenever the body returns, whatever the
exit path.  While the loop is still running the deferred call has not yet
run. -/
def serveWSConn (h : HTTPHandler) (sid : Nat) (url : URL) (session : Session)
    (script : List LoopCase) : HTTPHandler × LoopExit :=
  match serveWSBody (AddSocket h sid).base url (NewHTTPSocket session true) script with
  | .running => (AddSocket h sid, .running)
  | .exited r => (DeleteSocket (AddSocket h sid) sid, .exited r)

/-- Observable trace of `serveWS` (http.go lines 171-201): whether the
configured error handler was invoked before upgrade, whether the initial
connected event was sent and with which bounded timeout, the discarded
result of that send, whether `_serveWS` (the per-connection logic with its
event loop) was entered, and the close-log line of the default branch, if
any. -/
structure WSTrace where
  errorHandled : Option GoError := none
  sentConnect : Bool := false
  connectTimeoutSeconds : Nat := 0
  connectSendRes : Option GoError := none
  enteredConnLogic : Bool := false
  closeLogged : Option String := none
  deriving DecidableEq, Repr

/-- `serveWS` (http.go lines 171-201): resolve the session (failure goes
to the error handler), accept the websocket (failure goes to the error
handler), send the initial `EventConnect` via `writeTimeout` with a
5-second bound — the source discards this call's result — then run
`_serveWS` and classify its returned error: a `context.Canceled` match
returns silently, close statuses 1000 (normal) and 1001 (going away)
return silently, and every other value — a nil error included, since
`CloseStatus(nil)` is -1 — is logged by the default branch. -/
def serveWS (h : HTTPHandler) (url : URL) (sid : Nat)
    (getRes : Except GoError Session) (acceptRes : Option GoError)
    (connectSendRes : Option GoError) (script : List LoopCase) :
    HTTPHandler × WSTrace :=
  match getRes with
  | .error e => (h, { errorHandled := some e })
  | .ok session =>
    match acceptRes with
    | some e => (h, { errorHandled := some e })
    | none =>
      match serveWSConn h sid url session script with
      | (h1, .running) =>
        (h1, { sentConnect := true, connectTimeoutSeconds := 5,
               connectSendRes := connectSendRes, enteredConnLogic := true })
      | (h1, .exited r) =>
        if errorsIsOpt r .canceled ∨ closeStatus r = 1000 ∨ closeStatus r = 1001 then
          (h1, { sentConnect := true, connectTimeoutSeconds := 5,
                 connectSendRes := connectSendRes, enteredConnLogic := true })
        else
          (h1, { sentConnect := true, connectTimeoutSeconds := 5,
                 connectSendRes := connectSendRes, enteredConnLogic := true,
                 closeLogged :=
                   some ("ws closed with status (" ++ toString (closeStatus r) ++ ")") })

/-- Number of redirects a stateless response trace issues. -/
def redirectCount (tr : List HTTPAction) : Nat :=
  (tr.filter fun a => match a with | .redirected _ _ _ => true | _ => false).length

/-! ## Concrete fixtures used by witnesses and counterexamples -/

/-- A small render tree. -/
def demoTree : Tree := .elem "div" [] [.text "demo"]

/-- A session fixture. -/
def demoSession : Session := { id := 1 }

/-- A request URL fixture. -/
def demoURL : URL := { path := "/" }

/-- A functional option that fails without touching the handler. -/
def cfgFail : HandlerConfig := fun h => (h, some (.msg "boom"))

/-- A functional option that installs a render handler for `demoTree`. -/
def cfgSetRender : HandlerConfig :=
  fun h => ({ h with renderHandler := fun _ => .ok demoTree }, none)

/-- A handler fixture for the first-paint witness: mount assigns a number
and render produces `demoTree`. -/
def c8h : HTTPHandler :=
  { base :=
      { defaultBaseHandler with
          mountHandler := fun _ => .ok (.num 3)
          renderHandler := fun _ => .ok demoTree } }

/-- A handler fixture whose `"inc"` event handler succeeds while its
render handler is the failing default. -/
def c1h : BaseHandler :=
  { defaultBaseHandler with eventHandlers := [("inc", fun _ _ => .ok (.num 1))] }

/-- A connected socket fixture with no snapshot yet. -/
def c1sock : SocketState := NewHTTPSocket demoSession true

/-- An inbound message fixture for the `"inc"` event. -/
def c1m : Event := { T := "inc", ID := 7 }

/-- A handler fixture whose `"inc"` event handler and render handler both
succeed. -/
def c1hOK : BaseHandler :=
  { defaultBaseHandler with
      eventHandlers := [("inc", fun _ _ => .ok (.num 1))]
      renderHandler := fun _ => .ok demoTree }

/-! ## Helper lemmas -/

/-- Removing a key from a query leaves nothing for `lookup` to find. -/
theorem lookup_filter_none (q : Params) (k : String) :
    (q.filter (fun kv => kv.1 ≠ k)).lookup k = none := by
  induction q with
  | nil => rfl
  | cons kv rest ih =>
    by_cases hk : kv.1 = k
    · simpa [List.filter_cons, hk] using ih
    · have hbeq : (k == kv.1) = false := by
        rw [beq_eq_false_iff_ne]
        exact fun hkk => hk hkk.symm
      simpa [List.filter_cons, hk, List.lookup, hbeq] using ih

/-- `querySet` makes `queryGet` return the set value. -/
theorem queryGet_querySet (u : URL) (k v : String) :
    (u.querySet k v).queryGet k = v := by
  simp [URL.querySet, URL.queryGet, List.lookup]

/-- A params-sequence step never touches the snapshot, the queue, the
session, or the connected flag. -/
theorem paramStep_preserve (p : Params) (acc : SocketState × Option GoError)
    (ph : EventHandler) :
    (paramStep p acc ph).1.renderState = acc.1.renderState ∧
    (paramStep p acc ph).1.msgs = acc.1.msgs ∧
    (paramStep p acc ph).1.session = acc.1.session ∧
    (paramStep p acc ph).1.connected = acc.1.connected := by
  obtain ⟨s, oe⟩ := acc
  cases oe with
  | some e => exact ⟨rfl, rfl, rfl, rfl⟩
  | none =>
    cases hph : ph s p with
    | error e => simp [paramStep, hph]
    | ok d => simp [paramStep, hph, SocketState.Assign]

/-- The params-handler sequence never touches the snapshot, the queue,
the session, or the connected flag. -/
theorem runParams_preserve (hs : List EventHandler) (p : Params) :
    ∀ acc : SocketState × Option GoError,
    (hs.foldl (paramStep p) acc).1.renderState = acc.1.renderState ∧
    (hs.foldl (paramStep p) acc).1.msgs = acc.1.msgs ∧
    (hs.foldl (paramStep p) acc).1.session = acc.1.session ∧
    (hs.foldl (paramStep p) acc).1.connected = acc.1.connected := by
  induction hs with
  | nil => intro acc; exact ⟨rfl, rfl, rfl, rfl⟩
  | cons ph rest ih =>
    intro acc
    have hstep := paramStep_preserve p acc ph
    have htail := ih (paramStep p acc ph)
    simp only [List.foldl_cons]
    exact ⟨htail.1.trans hstep.1, htail.2.1.trans hstep.2.1,
      htail.2.2.1.trans hstep.2.2.1, htail.2.2.2.trans hstep.2.2.2⟩

/-- Event dispatch (params, event, or self-event) only reassigns state: it
never touches the snapshot or the outbound queue. -/
theorem dispatchEvent_preserve (h : BaseHandler) (sock : SocketState) (m : Event) :
    (dispatchEvent h sock m).1.renderState = sock.renderState ∧
    (dispatchEvent h sock m).1.msgs = sock.msgs := by
  unfold dispatchEvent
  split
  · unfold CallParams runParams
    exact ⟨(runParams_preserve (getParams h) m.params (sock, none)).1,
      (runParams_preserve (getParams h) m.params (sock, none)).2.1⟩
  · unfold CallEvent
    split
    · split
      · exact ⟨rfl, rfl⟩
      · exact ⟨rfl, rfl⟩
    · split
      · split
        · exact ⟨rfl, rfl⟩
        · exact ⟨rfl, rfl⟩
      · exact ⟨rfl, rfl⟩

/-- A successful `RenderSocket` renders the socket's assigns, leaves the
snapshot field for the caller, and queues at most a patch event — never an
acknowledgement. -/
theorem renderSocket_ok (h : BaseHandler) (s0 s : SocketState) (t : Tree)
    (hok : RenderSocket h s0 = .ok (s, t)) :
    h.renderHandler s0.assigns = .ok t ∧
    s.renderState = s0.renderState ∧
    s.msgs.filter (fun e => e.T = EventAck) =
      s0.msgs.filter (fun e => e.T = EventAck) := by
  unfold RenderSocket at hok
  split at hok
  · exact Except.noConfusion hok
  next t1 hr =>
    split at hok
    · cases hok
      exact ⟨hr, rfl, rfl⟩
    · cases hok
      exact ⟨hr, rfl, rfl⟩
    · cases hok
      refine ⟨hr, rfl, ?_⟩
      simp [SocketState.Send, List.filter_append, EventPatch, EventAck]

/-- A failing `RenderSocket` is exactly a failing render handler. -/
theorem renderSocket_error (h : BaseHandler) (s0 : SocketState) (e : GoError)
    (he : RenderSocket h s0 = .error e) :
    h.renderHandler s0.assigns = .error e := by
  unfold RenderSocket at he
  split at he
  next e1 hr =>
    cases he
    exact hr
  next t1 hr =>
    split at he
    · exact Except.noConfusion he
    · exact Except.noConfusion he
    · exact Except.noConfusion he

/-! ## Claims -/

/-- Claim C10: a handler constructed with no configuration options has a
default mount handler returning nil state and nil error, a default
unmount handler returning nil, and a default render handler that always
fails with `ErrNoRenderer`, so any render attempt on an unconfigured
handler (here via `RenderSocket`) returns `ErrNoRenderer`. -/
theorem c10_unconfigured_handler_defaults (s : SocketState) (d : GoVal) :
    (NewHandler []).1.mountHandler s = .ok .nil ∧
    (NewHandler []).1.unmountHandler s = none ∧
    (NewHandler []).1.renderHandler d = .error .noRenderer ∧
    RenderSocket (NewHandler []).1 s = .error .noRenderer :=
  ⟨rfl, rfl, rfl, rfl⟩

/-- Claim C4, counterexample: `NewHandler` (handler.go lines 95-123) does
not abort when an option fails — the failing option's error is collected
as a warning, the remaining options are still applied in order, and a
handler value is produced (here one whose render handler was installed by
the option after the failing one). -/
theorem c4_counterexample :
    (NewHandler [cfgFail, cfgSetRender]).2 = [.msg "boom"] ∧
    (NewHandler [cfgFail, cfgSetRender]).1.renderHandler .nil = .ok demoTree :=
  ⟨rfl, rfl⟩

/-- Claim C4, amended: the HTTP handler constructor (http.go lines 62-77)
applies its options in order and aborts, with a wrapped error, when the
base construction fails; the base constructor `NewHandler` (handler.go)
also applies options in the order given, but an option error is recorded
as a warning and application continues, still producing a handler. -/
theorem c4_construction_order_and_abort (cs : List HandlerConfig)
    (c : HandlerConfig) (e : GoError)
    (hbase : NewBaseHandler cs = .error e) :
    HTTPNewHandler cs = .error (.wrap "could not init base handler" e) ∧
    NewHandler (cs ++ [c]) = newHandlerStep (NewHandler cs) c := by
  constructor
  · unfold HTTPNewHandler
    rw [hbase]
  · unfold NewHandler
    rw [List.foldl_append]
    rfl

/-- Claim C4, witness for the amended theorem at a failing option list. -/
theorem c4_construction_order_and_abort_witness :
    NewBaseHandler [cfgFail] = .error (.msg "boom") ∧
    (HTTPNewHandler [cfgFail] = .error (.wrap "could not init base handler" (.msg "boom")) ∧
      NewHandler ([cfgFail] ++ [cfgSetRender]) =
        newHandlerStep (NewHandler [cfgFail]) cfgSetRender) :=
  ⟨rfl, c4_construction_order_and_abort [cfgFail] cfgSetRender (.msg "boom") rfl⟩

/-- Claim C9: the stateless request path leaves the handler — its
live-socket set included — untouched on every branch: only the request's
own socket is threaded through mount, params, and render. -/
theorem c9_stateless_path_frame (h : HTTPHandler) (url : URL)
    (getRes : Except GoError Session) (saveRes : Option GoError) :
    (serveHTTP h url getRes saveRes).1 = h ∧
    (serveHTTP h url getRes saveRes).1.sockets = h.sockets := by
  have hh : (serveHTTP h url getRes saveRes).1 = h := by
    unfold serveHTTP
    split
    · split <;> rfl
    · split
      · rfl
      · split
        · rfl
        · split
          · rfl
          · split <;> rfl
  exact ⟨hh, by rw [hh]⟩

/-- Claim C2: on the stateless path, a failing session-store `Get` without
the repair query parameter clears the session and issues exactly one
temporary redirect to the same URL with `live-repair=1` set; with the
marker already present it invokes the Error handler with a wrapped fatal
session-corruption error and issues no redirect. -/
theorem c2_session_corruption_repair (h : HTTPHandler) (p : String) (q : Params)
    (e : GoError) (saveRes : Option GoError) :
    let u0 : URL := { path := p, query := q.filter (fun kv => kv.1 ≠ "live-repair") }
    let target := u0.querySet "live-repair" "1"
    (serveHTTP h u0 (.error e) saveRes).2 =
      [.logged ("session corrupted trying to repair: " ++ errMessage e),
       .clearedSession, .redirected 307 target.path target.query] ∧
    redirectCount (serveHTTP h u0 (.error e) saveRes).2 = 1 ∧
    target.path = u0.path ∧
    target.queryGet "live-repair" = "1" ∧
    (serveHTTP h target (.error e) saveRes).2 =
      [.handledError (.wrap "session corrupted" e)] ∧
    redirectCount (serveHTTP h target (.error e) saveRes).2 = 0 := by
  intro u0 target
  have h0 : u0.queryGet "live-repair" = "" := by
    show ((q.filter (fun kv => kv.1 ≠ "live-repair")).lookup "live-repair").getD "" = ""
    rw [lookup_filter_none]
    rfl
  have h1 : target.queryGet "live-repair" = "1" :=
    queryGet_querySet u0 "live-repair" "1"
  refine ⟨?_, ?_, rfl, h1, ?_, ?_⟩
  · simp [serveHTTP, h0, target]
  · simp [serveHTTP, h0, redirectCount]
  · simp [serveHTTP, h1]
  · simp [serveHTTP, h1, redirectCount]

/-- Claim C8: on a first paint no previous snapshot exists (a fresh
request socket carries none), the diff step is skipped — `Diff` of an
absent previous tree and current tree `t` is the full-tree result of
serializing `t` — and the stateless path emits exactly that serialized
document. -/
theorem c8_first_paint_full_tree (h : HTTPHandler) (url : URL) (session : Session)
    (d : GoVal) (t : Tree)
    (hm : h.base.mountHandler (NewHTTPSocket session false) = .ok d)
    (hp : getParams h.base = [])
    (hr : h.base.renderHandler d = .ok t) :
    (NewHTTPSocket session false).renderState = none ∧
    Diff (NewHTTPSocket session false).renderState t = .fullTree (serialize t) ∧
    (serveHTTP h url (.ok session) none).2 =
      [.savedSession, .wroteStatus 200, .wroteBody (serialize t)] := by
  refine ⟨rfl, rfl, ?_⟩
  have hrs : RenderSocket h.base ((NewHTTPSocket session false).Assign d) =
      .ok ((NewHTTPSocket session false).Assign d, t) := by
    unfold RenderSocket
    rw [show ((NewHTTPSocket session false).Assign d).assigns = d from rfl, hr]
    rfl
  simp only [serveHTTP, hm, hp, NewParamsFromRequest, runParams, List.foldl_nil, hrs]

/-- Claim C8, witness: the first-paint theorem applied at a concrete
handler, URL, and session. -/
theorem c8_first_paint_full_tree_witness :
    (NewHTTPSocket demoSession false).renderState = none ∧
    Diff (NewHTTPSocket demoSession false).renderState demoTree =
      .fullTree (serialize demoTree) ∧
    (serveHTTP c8h demoURL (.ok demoSession) none).2 =
      [.savedSession, .wroteStatus 200, .wroteBody (serialize demoTree)] :=
  c8_first_paint_full_tree c8h demoURL demoSession (.num 3) demoTree rfl rfl rfl

/-- An error always matches itself under `errors.Is`. -/
theorem errorsIs_self (t : GoError) : errorsIs t t = true := by
  cases t <;> simp [errorsIs]

/-- Unwrapping one `fmt.Errorf` layer under `errors.Is`. -/
theorem errorsIs_wrap (s : String) (inner t : GoError) :
    errorsIs (.wrap s inner) t = ((GoError.wrap s inner == t) || errorsIs inner t) :=
  rfl

/-- A wrapped `ErrNoEventHandler` matches `ErrNoEventHandler`. -/
theorem errorsIs_wrap_noEventHandler (s : String) :
    errorsIs (.wrap s .noEventHandler) .noEventHandler = true := by
  simp [errorsIs_wrap, errorsIs_self]

/-- Claim C1, amended: for an inbound event that is successfully
dispatched, the read activity re-renders; when the render succeeds the
stored snapshot is updated to the new tree, and when it fails the snapshot
is left unchanged and the wrapped render error goes to the internal
(fatal) channel; in either case no error event is queued and exactly one
acknowledgement event, with the inbound message's id, is queued. -/
theorem c1_dispatch_ack_and_snapshot (h : BaseHandler) (sock : SocketState)
    (m : Event) (hd : (dispatchEvent h sock m).2 = none) :
    ((handleEvent h sock m).sock.msgs.filter (fun e => e.T = EventAck) =
      sock.msgs.filter (fun e => e.T = EventAck) ++ [{ T := EventAck, ID := m.ID }]) ∧
    ((handleEvent h sock m).sock.renderState =
      match RenderSocket h (dispatchEvent h sock m).1 with
      | .ok (_, t) => some t
      | .error _ => sock.renderState) ∧
    ((handleEvent h sock m).internalErrors =
      match RenderSocket h (dispatchEvent h sock m).1 with
      | .ok _ => []
      | .error e => [.wrap "socket handle error" e]) ∧
    ((handleEvent h sock m).eventErrors = []) ∧
    ((handleEvent h sock m).logs = []) := by
  obtain ⟨s1, hs1⟩ : ∃ s1, dispatchEvent h sock m = (s1, none) :=
    ⟨(dispatchEvent h sock m).1, by rw [← hd]⟩
  have hpre := dispatchEvent_preserve h sock m
  rw [hs1] at hpre
  have hpre1 : s1.renderState = sock.renderState := hpre.1
  have hpre2 : s1.msgs = sock.msgs := hpre.2
  unfold handleEvent
  rw [hs1]
  dsimp only
  cases hre : RenderSocket h s1 with
  | error e =>
    refine ⟨?_, ?_, rfl, rfl, rfl⟩
    · simp only [SocketState.Send, List.filter_append, hpre2]
      simp
    · simpa [SocketState.Send] using hpre1
  | ok p =>
    obtain ⟨s2, t2⟩ := p
    have hok := renderSocket_ok h s1 s2 t2 hre
    have hmsg : s2.msgs.filter (fun e => e.T = EventAck) =
        sock.msgs.filter (fun e => e.T = EventAck) := by
      rw [hok.2.2, hpre2]
    refine ⟨?_, rfl, rfl, rfl, rfl⟩
    simp only [SocketState.Send, SocketState.UpdateRender, List.filter_append, hmsg]
    simp

/-- Claim C1, counterexample: with a registered event handler that
succeeds but a render handler that fails, the dispatch succeeds yet the
socket's stored snapshot is not updated (it stays absent), while the
acknowledgement for the inbound id is still queued — so "re-renders,
updates the socket's stored snapshot, and queues exactly one
acknowledgement" is false as stated. -/
theorem c1_counterexample :
    (dispatchEvent c1h c1sock c1m).2 = none ∧
    (handleEvent c1h c1sock c1m).sock.renderState = none ∧
    (handleEvent c1h c1sock c1m).internalErrors =
      [.wrap "socket handle error" .noRenderer] ∧
    (handleEvent c1h c1sock c1m).sock.msgs.filter (fun e => e.T = EventAck) =
      [{ T := EventAck, ID := 7 }] :=
  ⟨rfl, rfl, rfl, rfl⟩

/-- Claim C1, witness for the amended theorem at a concrete handler,
socket, and message. -/
theorem c1_dispatch_ack_and_snapshot_witness :
    (dispatchEvent c1hOK c1sock c1m).2 = none ∧
    (((handleEvent c1hOK c1sock c1m).sock.msgs.filter (fun e => e.T = EventAck) =
      c1sock.msgs.filter (fun e => e.T = EventAck) ++ [{ T := EventAck, ID := c1m.ID }]) ∧
    ((handleEvent c1hOK c1sock c1m).sock.renderState =
      match RenderSocket c1hOK (dispatchEvent c1hOK c1sock c1m).1 with
      | .ok (_, t) => some t
      | .error _ => c1sock.renderState) ∧
    ((handleEvent c1hOK c1sock c1m).internalErrors =
      match RenderSocket c1hOK (dispatchEvent c1hOK c1sock c1m).1 with
      | .ok _ => []
      | .error e => [.wrap "socket handle error" e]) ∧
    ((handleEvent c1hOK c1sock c1m).eventErrors = []) ∧
    ((handleEvent c1hOK c1sock c1m).logs = [])) :=
  ⟨rfl, c1_dispatch_ack_and_snapshot c1hOK c1sock c1m rfl⟩

/-- Claim C6: an inbound event whose type has no registered event or self
handler yields a dispatch error wrapping the distinguished
`ErrNoEventHandler`, which `errors.Is` recognises; it is logged and
swallowed — no error event is queued for the client and (given a working
render) nothing is pushed on the fatal internal channel, so the connection
stays open. -/
theorem c6_unregistered_event_swallowed (h : BaseHandler) (sock : SocketState)
    (m : Event) (t : Tree)
    (hne : m.T ≠ EventParams)
    (hev : h.eventHandlers.lookup m.T = none)
    (hself : h.selfHandlers.lookup m.T = none)
    (hr : h.renderHandler sock.assigns = .ok t) :
    (dispatchEvent h sock m).2 =
      some (.wrap ("no event handler for " ++ m.T) .noEventHandler) ∧
    errorsIs (.wrap ("no event handler for " ++ m.T) .noEventHandler)
      .noEventHandler = true ∧
    (handleEvent h sock m).eventErrors = [] ∧
    (handleEvent h sock m).internalErrors = [] ∧
    (handleEvent h sock m).logs = ["event error"] := by
  have hdis : dispatchEvent h sock m =
      (sock, some (.wrap ("no event handler for " ++ m.T) .noEventHandler)) := by
    unfold dispatchEvent CallEvent getEvent getSelf
    rw [if_neg hne, hev, hself]
  refine ⟨by rw [hdis], errorsIs_wrap_noEventHandler _, ?_, ?_, ?_⟩
  · unfold handleEvent
    rw [hdis]
    dsimp only
    rw [if_pos (errorsIs_wrap_noEventHandler _)]
  · unfold handleEvent
    rw [hdis]
    dsimp only
    rw [if_pos (errorsIs_wrap_noEventHandler _)]
    cases hrs : RenderSocket h sock with
    | error e =>
      exact absurd (renderSocket_error h sock e hrs) (by simp [hr])
    | ok p => rfl
  · unfold handleEvent
    rw [hdis]
    dsimp only
    rw [if_pos (errorsIs_wrap_noEventHandler _)]

/-- Claim C6, witness: an unregistered `"missing"` event on a handler with
a working render handler. -/
theorem c6_unregistered_event_swallowed_witness :
    ("missing" ≠ EventParams ∧
      c1hOK.eventHandlers.lookup "missing" = none ∧
      c1hOK.selfHandlers.lookup "missing" = none ∧
      c1hOK.renderHandler c1sock.assigns = .ok demoTree) ∧
    ((dispatchEvent c1hOK c1sock { T := "missing", ID := 9 }).2 =
      some (.wrap ("no event handler for " ++ "missing") .noEventHandler) ∧
    errorsIs (.wrap ("no event handler for " ++ "missing") .noEventHandler)
      .noEventHandler = true ∧
    (handleEvent c1hOK c1sock { T := "missing", ID := 9 }).eventErrors = [] ∧
    (handleEvent c1hOK c1sock { T := "missing", ID := 9 }).internalErrors = [] ∧
    (handleEvent c1hOK c1sock { T := "missing", ID := 9 }).logs = ["event error"]) :=
  ⟨⟨by decide, rfl, rfl, rfl⟩,
    c6_unregistered_event_swallowed c1hOK c1sock { T := "missing", ID := 9 }
      demoTree (by decide) rfl rfl rfl⟩

/-- Claim C3: once the websocket connection logic has registered its
socket in the live set, every path on which it returns — mount error,
params error, render error, write error, internal error, or context
cancellation, all of which surface as an `exited` result — deregisters it
again, leaving the live set exactly as before the connection. -/
theorem c3_socket_always_deregistered (h : HTTPHandler) (sid : Nat) (url : URL)
    (session : Session) (script : List LoopCase) (r : Option GoError)
    (hexit : (serveWSConn h sid url session script).2 = .exited r) :
    (serveWSConn h sid url session script).1.sockets = h.sockets ∧
    (AddSocket h sid).sockets = sid :: h.sockets := by
  refine ⟨?_, rfl⟩
  unfold serveWSConn at hexit ⊢
  cases hb : serveWSBody (AddSocket h sid).base url (NewHTTPSocket session true) script with
  | running =>
    rw [hb] at hexit
    exact LoopExit.noConfusion hexit
  | exited r2 =>
    show (DeleteSocket (AddSocket h sid) sid).sockets = h.sockets
    simp [DeleteSocket, AddSocket]

/-- Claim C3, witness: a connection that exits through context
cancellation leaves the live set unchanged. -/
theorem c3_socket_always_deregistered_witness :
    (serveWSConn c8h 5 demoURL demoSession [.ctxDone]).2 = .exited none ∧
    ((serveWSConn c8h 5 demoURL demoSession [.ctxDone]).1.sockets = c8h.sockets ∧
      (AddSocket c8h 5).sockets = 5 :: c8h.sockets) :=
  ⟨rfl, c3_socket_always_deregistered c8h 5 demoURL demoSession [.ctxDone] none rfl⟩

/-- Claim C5, counterexample: a failing initial connected-event send is
not fatal — its result is discarded by the source, and the per-connection
logic (with its event loop) runs regardless, here to a context-cancelled
exit. -/
theorem c5_counterexample :
    (serveWS c8h demoURL 1 (.ok demoSession) none (some (.msg "connect send failed"))
        [.ctxDone]).2.sentConnect = true ∧
    (serveWS c8h demoURL 1 (.ok demoSession) none (some (.msg "connect send failed"))
        [.ctxDone]).2.connectSendRes = some (.msg "connect send failed") ∧
    (serveWS c8h demoURL 1 (.ok demoSession) none (some (.msg "connect send failed"))
        [.ctxDone]).2.enteredConnLogic = true :=
  ⟨rfl, rfl, rfl⟩

/-- Claim C5, amended: after a successful session fetch and websocket
accept, the initial connected event is sent under the bounded 5-second
write timeout, but the result of that send is discarded and the
per-connection logic is entered regardless of whether the send failed. -/
theorem c5_connect_send_unchecked (h : HTTPHandler) (url : URL) (sid : Nat)
    (session : Session) (res : Option GoError) (script : List LoopCase) :
    (serveWS h url sid (.ok session) none res script).2.sentConnect = true ∧
    (serveWS h url sid (.ok session) none res script).2.connectTimeoutSeconds = 5 ∧
    (serveWS h url sid (.ok session) none res script).2.enteredConnLogic = true := by
  simp only [serveWS]
  split
  · exact ⟨rfl, rfl, rfl⟩
  · split
    · exact ⟨rfl, rfl, rfl⟩
    · exact ⟨rfl, rfl, rfl⟩

/-- Claim C7: a context-cancellation exit of the connection loop returns
no error value (`exited none`), yet the surrounding handler logs it: with
a nil error, `errors.Is(nil, context.Canceled)` is false and
`CloseStatus(nil)` is -1, so the default branch logs
"ws closed with status (-1)".  By contrast an error value that wraps
`context.Canceled` is recognised and returns silently — the intended
behaviour the nil exit misses. -/
theorem c7_cancellation_logged_as_failure :
    (serveWSConn c8h 1 demoURL demoSession [.ctxDone]).2 = .exited none ∧
    (serveWS c8h demoURL 1 (.ok demoSession) none none [.ctxDone]).2.closeLogged =
      some "ws closed with status (-1)" ∧
    (serveWS c8h demoURL 1 (.ok demoSession) none none
        [.internalError (some .canceled) (some .canceled)]).2.closeLogged = none :=
  ⟨rfl, rfl, rfl⟩

end Live
